import Mathlib

/-!
Shallow embedding of the Result & Grading Engine of the Student_result_Management
repository (Django app `results`), together with theorems checking the
specification's claims against it.

Sources embedded:
- `src/SRM/courses/models.py` : `Subject` (credits, max_marks, passing_marks)
- `src/SRM/results/models.py` : `SubjectMarks.save` / `SubjectMarks.calculate_grade`,
  `Attendance.save` / `Attendance.status`
- `src/SRM/results/utils.py`  : `calculate_sgpa`, `calculate_cgpa`
- `src/SRM/results/views.py`  : `publish_results`, `unpublish_results`,
  `teacher_marks_entry`, `teacher_attendance_entry`
- `src/SRM/results/forms.py`  : `AttendanceForm.clean`

Numeric conventions: Django `IntegerField`s are embedded as `ℤ`; Python
float/Decimal arithmetic on these values is embedded as exact `ℚ` arithmetic;
Python's `round(x, 2)` (round-half-to-even, as used by both `float.__round__`
and `Decimal.__round__`) is embedded as `round2`.
-/

namespace SRM

/-- Python `round` to an integer: round-half-to-even (banker's rounding). -/
def roundHalfEven (q : ℚ) : ℤ :=
  if q - ⌊q⌋ = 1/2 then (if 2 ∣ ⌊q⌋ then ⌊q⌋ else ⌊q⌋ + 1) else round q

/-- Python `round(q, 2)`: round-half-to-even at two decimal places. -/
def round2 (q : ℚ) : ℚ := (roundHalfEven (q * 100) : ℚ) / 100

/-- `courses.models.Subject`: the fields the grading engine reads. -/
structure Subject where
  credits : ℤ
  max_marks : ℤ
  passing_marks : ℤ
deriving DecidableEq, Repr

/-- `results.models.SubjectMarks`: one row of the `subject_marks` table.
`grade_point` is a `DecimalField`, embedded as `ℚ`. -/
structure SubjectMarks where
  subject : Subject
  internal_marks : ℤ
  external_marks : ℤ
  total_marks : ℤ
  grade : String
  grade_point : ℚ
  is_passed : Bool
deriving DecidableEq, Repr

/-- `SubjectMarks.calculate_grade` (results/models.py lines 108-130):
grade letter and grade point from `total_marks / subject.max_marks * 100`,
with the `max_marks == 0` degenerate guard. -/
def SubjectMarks.calculate_grade (subject : Subject) (total_marks : ℤ) : String × ℚ :=
  if subject.max_marks = 0 then ("F", 0)
  else
    let percentage : ℚ := ((total_marks : ℚ) / (subject.max_marks : ℚ)) * 100
    if percentage ≥ 90 then ("O", 10)
    else if percentage ≥ 80 then ("A+", 9)
    else if percentage ≥ 70 then ("A", 8)
    else if percentage ≥ 60 then ("B+", 7)
    else if percentage ≥ 50 then ("B", 6)
    else if percentage ≥ 45 then ("C", 5)
    else if percentage ≥ 40 then ("P", 4)
    else ("F", 0)

/-- `SubjectMarks.save` (results/models.py lines 101-106): recompute
`total_marks`, `grade`, `grade_point`, `is_passed` before persisting. -/
def SubjectMarks.save (m : SubjectMarks) : SubjectMarks :=
  let total := m.internal_marks + m.external_marks
  let gp := SubjectMarks.calculate_grade m.subject total
  { m with
    total_marks := total
    grade := gp.1
    grade_point := gp.2
    is_passed := decide (total ≥ m.subject.passing_marks) }

/-- Claim C1: after any save of a `SubjectMarks` row with nonnegative internal and
external marks, `total_marks = internal + external`; the stored
(grade, grade_point) is `('F', 0.0)` when `max_marks = 0`, and otherwise is
determined by the closed-open percentage bands
`[90,∞) ↦ ('O',10)`, `[80,90) ↦ ('A+',9)`, `[70,80) ↦ ('A',8)`,
`[60,70) ↦ ('B+',7)`, `[50,60) ↦ ('B',6)`, `[45,50) ↦ ('C',5)`,
`[40,45) ↦ ('P',4)`, `(-∞,40) ↦ ('F',0)` of
`percentage = total / max_marks * 100`. -/
theorem grade_bands_after_save (m : SubjectMarks)
    (hi : 0 ≤ m.internal_marks) (he : 0 ≤ m.external_marks) :
    (m.save).total_marks = m.internal_marks + m.external_marks ∧
    (m.subject.max_marks = 0 →
      ((m.save).grade, (m.save).grade_point) = ("F", 0)) ∧
    (m.subject.max_marks ≠ 0 →
      (let p : ℚ := (((m.save).total_marks : ℚ) / (m.subject.max_marks : ℚ)) * 100
       (90 ≤ p → ((m.save).grade, (m.save).grade_point) = ("O", 10)) ∧
       (80 ≤ p → p < 90 → ((m.save).grade, (m.save).grade_point) = ("A+", 9)) ∧
       (70 ≤ p → p < 80 → ((m.save).grade, (m.save).grade_point) = ("A", 8)) ∧
       (60 ≤ p → p < 70 → ((m.save).grade, (m.save).grade_point) = ("B+", 7)) ∧
       (50 ≤ p → p < 60 → ((m.save).grade, (m.save).grade_point) = ("B", 6)) ∧
       (45 ≤ p → p < 50 → ((m.save).grade, (m.save).grade_point) = ("C", 5)) ∧
       (40 ≤ p → p < 45 → ((m.save).grade, (m.save).grade_point) = ("P", 4)) ∧
       (p < 40 → ((m.save).grade, (m.save).grade_point) = ("F", 0)))) := by
  refine ⟨rfl, ?_, ?_⟩
  · intro h0
    simp [SubjectMarks.save, SubjectMarks.calculate_grade, h0]
  · intro h0
    simp only [SubjectMarks.save, SubjectMarks.calculate_grade, h0, if_false]
    refine ⟨?_, ?_, ?_, ?_, ?_, ?_, ?_, ?_⟩ <;>
      intros <;> split_ifs <;> first | rfl | linarith

/-- Witness for `grade_bands_after_save` at a concrete record. -/
theorem grade_bands_after_save_witness :
    let s : Subject := ⟨4, 100, 40⟩
    let m : SubjectMarks := ⟨s, 30, 45, 0, "", 0, false⟩
    (m.save).total_marks = m.internal_marks + m.external_marks ∧
    (m.subject.max_marks = 0 →
      ((m.save).grade, (m.save).grade_point) = ("F", 0)) ∧
    (m.subject.max_marks ≠ 0 →
      (let p : ℚ := (((m.save).total_marks : ℚ) / (m.subject.max_marks : ℚ)) * 100
       (90 ≤ p → ((m.save).grade, (m.save).grade_point) = ("O", 10)) ∧
       (80 ≤ p → p < 90 → ((m.save).grade, (m.save).grade_point) = ("A+", 9)) ∧
       (70 ≤ p → p < 80 → ((m.save).grade, (m.save).grade_point) = ("A", 8)) ∧
       (60 ≤ p → p < 70 → ((m.save).grade, (m.save).grade_point) = ("B+", 7)) ∧
       (50 ≤ p → p < 60 → ((m.save).grade, (m.save).grade_point) = ("B", 6)) ∧
       (45 ≤ p → p < 50 → ((m.save).grade, (m.save).grade_point) = ("C", 5)) ∧
       (40 ≤ p → p < 45 → ((m.save).grade, (m.save).grade_point) = ("P", 4)) ∧
       (p < 40 → ((m.save).grade, (m.save).grade_point) = ("F", 0)))) :=
  grade_bands_after_save _ (by decide) (by decide)

/-- Claim C5: after every save, `is_passed` holds exactly when
`total_marks ≥ subject.passing_marks`, independently of the letter grade;
concretely, a subject with `max_marks = 100`, `passing_marks = 35` and a saved
total of 38 gets grade `'F'` together with `is_passed = true`. -/
theorem is_passed_independent_of_grade (m : SubjectMarks) :
    ((m.save).is_passed = true ↔ (m.save).total_marks ≥ m.subject.passing_marks) ∧
    (let ex : SubjectMarks := SubjectMarks.save ⟨⟨3, 100, 35⟩, 20, 18, 0, "", 0, false⟩
     ex.total_marks = 38 ∧ ex.grade = "F" ∧ ex.is_passed = true) := by
  constructor
  · simp [SubjectMarks.save]
  · refine ⟨rfl, ?_, by decide⟩
    norm_num [SubjectMarks.save, SubjectMarks.calculate_grade]

/-- `results.models.Attendance`: one row of the `attendance` table.
`percentage` is a `DecimalField(5,2)`, embedded as `ℚ`. -/
structure Attendance where
  total_classes : ℤ
  attended_classes : ℤ
  percentage : ℚ
deriving DecidableEq, Repr

/-- `Attendance.save` (results/models.py lines 161-167): recompute the
attendance percentage before persisting, guarding `total_classes = 0`. -/
def Attendance.save (a : Attendance) : Attendance :=
  if a.total_classes > 0 then
    { a with percentage := round2 (((a.attended_classes : ℚ) / (a.total_classes : ℚ)) * 100) }
  else
    { a with percentage := 0 }

/-- `Attendance.status` (results/models.py lines 169-177): bucket the stored
percentage into Good / Average / Poor. -/
def Attendance.status (a : Attendance) : String :=
  if a.percentage ≥ 75 then "Good"
  else if a.percentage ≥ 60 then "Average"
  else "Poor"

/-- Claim C8: saving an `Attendance` row with nonnegative counts stores
percentage 0 when `total_classes = 0` and otherwise
`round(attended / total * 100, 2)`, with no division-by-zero failure; the
status bucket is Good on `[75,∞)`, Average on `[60,75)`, Poor below 60,
so 75.0 ↦ Good, 74.99 ↦ Average, 60.0 ↦ Average, 59.99 ↦ Poor. -/
theorem attendance_save_and_status (a : Attendance)
    (ht : 0 ≤ a.total_classes) (ha : 0 ≤ a.attended_classes) :
    (a.total_classes = 0 → (a.save).percentage = 0) ∧
    (a.total_classes ≠ 0 →
      (a.save).percentage =
        round2 (((a.attended_classes : ℚ) / (a.total_classes : ℚ)) * 100)) ∧
    (∀ b : Attendance,
      (75 ≤ b.percentage → b.status = "Good") ∧
      (60 ≤ b.percentage → b.percentage < 75 → b.status = "Average") ∧
      (b.percentage < 60 → b.status = "Poor")) ∧
    ((Attendance.status ⟨0, 0, 75⟩ = "Good") ∧
     (Attendance.status ⟨0, 0, 7499/100⟩ = "Average") ∧
     (Attendance.status ⟨0, 0, 60⟩ = "Average") ∧
     (Attendance.status ⟨0, 0, 5999/100⟩ = "Poor")) := by
  refine ⟨?_, ?_, ?_, by norm_num [Attendance.status]⟩
  · intro h0
    simp [Attendance.save, h0]
  · intro h0
    have hpos : 0 < a.total_classes := lt_of_le_of_ne ht (Ne.symm h0)
    simp [Attendance.save, hpos]
  · intro b
    refine ⟨?_, ?_, ?_⟩ <;> intros <;> simp only [Attendance.status] <;>
      split_ifs <;> first | rfl | linarith

/-- Witness for `attendance_save_and_status` at `total = 8`, `attended = 6`
(percentage 75, status Good). -/
theorem attendance_save_and_status_witness :
    let a : Attendance := ⟨8, 6, 0⟩
    (a.total_classes = 0 → (a.save).percentage = 0) ∧
    (a.total_classes ≠ 0 →
      (a.save).percentage =
        round2 (((a.attended_classes : ℚ) / (a.total_classes : ℚ)) * 100)) ∧
    (∀ b : Attendance,
      (75 ≤ b.percentage → b.status = "Good") ∧
      (60 ≤ b.percentage → b.percentage < 75 → b.status = "Average") ∧
      (b.percentage < 60 → b.status = "Poor")) ∧
    ((Attendance.status ⟨0, 0, 75⟩ = "Good") ∧
     (Attendance.status ⟨0, 0, 7499/100⟩ = "Average") ∧
     (Attendance.status ⟨0, 0, 60⟩ = "Average") ∧
     (Attendance.status ⟨0, 0, 5999/100⟩ = "Poor")) :=
  attendance_save_and_status ⟨8, 6, 0⟩ (by decide) (by decide)

/-- `results.models.SemesterResult`: one row of the `semester_results` table.
`subject_marks` is the reverse relation to its `SubjectMarks` rows; `program`
is the owning student's program id (`student__program` in queries);
`published_date` is an abstract timestamp. -/
structure SemesterResult where
  student : ℕ
  program : ℕ
  semester : ℤ
  academic_year : String
  sgpa : Option ℚ
  total_credits : ℤ
  credits_earned : ℤ
  is_published : Bool
  published_date : Option ℕ
  subject_marks : List SubjectMarks
deriving DecidableEq, Repr

/-- The accumulation loop shared by `calculate_sgpa` and `calculate_cgpa`
(results/utils.py lines 19-22 and 56-60): fold
`(total_credits, total_grade_points)` over a list of marks, adding
`credits` and `grade_point * credits` per mark. -/
def gpaLoop : List SubjectMarks → ℤ × ℚ → ℤ × ℚ
  | [], acc => acc
  | m :: rest, (tc, tgp) =>
      gpaLoop rest (tc + m.subject.credits, tgp + m.grade_point * (m.subject.credits : ℚ))

/-- `calculate_sgpa` (results/utils.py lines 6-37): returns the rounded SGPA
and the (possibly updated) `SemesterResult`. On the degenerate branches
(no marks, or zero total credits) it returns `0.00` without touching the
record; otherwise it persists `total_credits`, `credits_earned` and the
rounded `sgpa` as a side effect. -/
def calculate_sgpa (sr : SemesterResult) : ℚ × SemesterResult :=
  if sr.subject_marks.isEmpty then (0, sr)
  else
    let acc := gpaLoop sr.subject_marks (0, 0)
    if acc.1 = 0 then (0, sr)
    else
      let sgpa := acc.2 / (acc.1 : ℚ)
      let sr' := { sr with
        total_credits := acc.1
        credits_earned :=
          ((sr.subject_marks.filter (fun m => m.is_passed)).map
            (fun m => m.subject.credits)).sum
        sgpa := some (round2 sgpa) }
      (round2 sgpa, sr')

/-- The outer loop of `calculate_cgpa` (results/utils.py lines 56-60):
accumulate over every mark of every semester result in the list. -/
def cgpaLoop : List SemesterResult → ℤ × ℚ → ℤ × ℚ
  | [], acc => acc
  | sr :: rest, acc => cgpaLoop rest (gpaLoop sr.subject_marks acc)

/-- `calculate_cgpa` (results/utils.py lines 40-66): credit-weighted average
over the marks of the student's published semester results, rounded to two
decimals, `0.00` when there are no published results or no credits. -/
def calculate_cgpa (results : List SemesterResult) : ℚ :=
  let semester_results := results.filter (fun sr => sr.is_published)
  if semester_results.isEmpty then 0
  else
    let acc := cgpaLoop semester_results (0, 0)
    if acc.1 = 0 then 0
    else round2 (acc.2 / (acc.1 : ℚ))

/-- The spec's `Σ(credits)` over a set of marks. -/
def sumCredits (marks : List SubjectMarks) : ℤ :=
  (marks.map (fun m => m.subject.credits)).sum

/-- The spec's `Σ(grade_point × credits)` over a set of marks. -/
def sumWeightedGradePoints (marks : List SubjectMarks) : ℚ :=
  (marks.map (fun m => m.grade_point * (m.subject.credits : ℚ))).sum

/-- Written from the spec's words (refinement side of claim C3): CGPA is the
credit-weighted average over the union of marks of exactly the published
semester results, rounded to 2 decimals, `0.00` if no credits. -/
def cgpaSpecSide (results : List SemesterResult) : ℚ :=
  let marks := (results.filter (fun sr => sr.is_published)).flatMap
    (fun sr => sr.subject_marks)
  if sumCredits marks = 0 then 0
  else round2 (sumWeightedGradePoints marks / (sumCredits marks : ℚ))

lemma gpaLoop_eq (marks : List SubjectMarks) (tc : ℤ) (tgp : ℚ) :
    gpaLoop marks (tc, tgp) = (tc + sumCredits marks, tgp + sumWeightedGradePoints marks) := by
  induction marks generalizing tc tgp with
  | nil => simp [gpaLoop, sumCredits, sumWeightedGradePoints]
  | cons m rest ih =>
      simp only [gpaLoop, ih, sumCredits, sumWeightedGradePoints, List.map_cons, List.sum_cons,
        Prod.mk.injEq]
      constructor <;> ring

lemma gpaLoop_zero (marks : List SubjectMarks) :
    gpaLoop marks 0 = (sumCredits marks, sumWeightedGradePoints marks) := by
  have h := gpaLoop_eq marks 0 0
  simpa using h

lemma cgpaLoop_eq (l : List SemesterResult) (tc : ℤ) (tgp : ℚ) :
    cgpaLoop l (tc, tgp) =
      (tc + sumCredits (l.flatMap (fun sr => sr.subject_marks)),
       tgp + sumWeightedGradePoints (l.flatMap (fun sr => sr.subject_marks))) := by
  induction l generalizing tc tgp with
  | nil => simp [cgpaLoop, sumCredits, sumWeightedGradePoints]
  | cons sr rest ih =>
      simp only [cgpaLoop, gpaLoop_eq, ih, List.flatMap_cons, sumCredits, sumWeightedGradePoints,
        List.map_append, List.sum_append, Prod.mk.injEq]
      constructor <;> ring

lemma cgpaLoop_zero (l : List SemesterResult) :
    cgpaLoop l 0 =
      (sumCredits (l.flatMap (fun sr => sr.subject_marks)),
       sumWeightedGradePoints (l.flatMap (fun sr => sr.subject_marks))) := by
  have h := cgpaLoop_eq l 0 0
  simpa using h

lemma roundHalfEven_eq_low (q : ℚ) (n : ℤ) (hlo : (n : ℚ) ≤ q) (hhi : q < n + 1/2) :
    roundHalfEven q = n := by
  have hf : ⌊q⌋ = n := Int.floor_eq_iff.mpr ⟨hlo, by linarith⟩
  unfold roundHalfEven
  rw [hf, if_neg (show ¬(q - (n : ℚ) = 1/2) by intro h; linarith), round_eq]
  exact Int.floor_eq_iff.mpr ⟨by linarith, by linarith⟩

lemma roundHalfEven_eq_high (q : ℚ) (n : ℤ) (hlo : (n : ℚ) + 1/2 < q) (hhi : q < n + 1) :
    roundHalfEven q = n + 1 := by
  have hf : ⌊q⌋ = n := Int.floor_eq_iff.mpr ⟨by linarith, by linarith⟩
  unfold roundHalfEven
  rw [hf, if_neg (show ¬(q - (n : ℚ) = 1/2) by intro h; linarith), round_eq]
  exact Int.floor_eq_iff.mpr ⟨by push_cast; linarith, by push_cast; linarith⟩

/-- Equation form of `calculate_sgpa` on the non-degenerate branch. -/
lemma calculate_sgpa_eq (sr : SemesterResult)
    (hne : sr.subject_marks ≠ [])
    (hc : sumCredits sr.subject_marks ≠ 0) :
    calculate_sgpa sr =
      (round2 (sumWeightedGradePoints sr.subject_marks / (sumCredits sr.subject_marks : ℚ)),
       { sr with
         total_credits := sumCredits sr.subject_marks
         credits_earned := sumCredits (sr.subject_marks.filter (fun m => m.is_passed))
         sgpa := some (round2
           (sumWeightedGradePoints sr.subject_marks / (sumCredits sr.subject_marks : ℚ))) }) := by
  have hempty : sr.subject_marks.isEmpty = false := by
    cases h : sr.subject_marks with
    | nil => exact absurd h hne
    | cons a l => simp
  have hc' : (List.map (fun m => m.subject.credits) sr.subject_marks).sum ≠ 0 := hc
  simp [calculate_sgpa, hempty, gpaLoop_zero, hc, hc', sumCredits]

/-- Equation form of `calculate_sgpa` on the degenerate branches. -/
lemma calculate_sgpa_degenerate (sr0 : SemesterResult)
    (h0 : sr0.subject_marks = [] ∨ sumCredits sr0.subject_marks = 0) :
    calculate_sgpa sr0 = (0, sr0) := by
  rcases h0 with h | h
  · simp [calculate_sgpa, h]
  · cases hm : sr0.subject_marks with
    | nil => simp [calculate_sgpa, hm]
    | cons a l =>
        have h' : sumCredits (a :: l) = 0 := hm ▸ h
        simp [calculate_sgpa, hm, gpaLoop_zero, h']

/-- Claim C2: on a semester result with marks and nonzero total credits,
`calculate_sgpa` returns `round(Σ(grade_point×credits) / Σ(credits), 2)` and,
as a side effect of the same call, persists `total_credits = Σcredits`,
`credits_earned = Σcredits over passed marks` and the rounded SGPA; on a
degenerate input (no marks, or zero total credits) it returns `0.00` and
leaves the record untouched. -/
theorem calculate_sgpa_spec (sr sr0 : SemesterResult)
    (hne : sr.subject_marks ≠ [])
    (hc : sumCredits sr.subject_marks ≠ 0)
    (h0 : sr0.subject_marks = [] ∨ sumCredits sr0.subject_marks = 0) :
    (calculate_sgpa sr).1 =
      round2 (sumWeightedGradePoints sr.subject_marks / (sumCredits sr.subject_marks : ℚ)) ∧
    (calculate_sgpa sr).2.total_credits = sumCredits sr.subject_marks ∧
    (calculate_sgpa sr).2.credits_earned =
      sumCredits (sr.subject_marks.filter (fun m => m.is_passed)) ∧
    (calculate_sgpa sr).2.sgpa = some ((calculate_sgpa sr).1) ∧
    calculate_sgpa sr0 = (0, sr0) := by
  rw [calculate_sgpa_eq sr hne hc, calculate_sgpa_degenerate sr0 h0]
  exact ⟨rfl, rfl, rfl, rfl, rfl⟩

/-- Witness for `calculate_sgpa_spec`: the spec's weighting example, subjects
with credits `[3,4]` and grade points `[8.0, 6.0]`, plus the check that the
returned SGPA is `round((8*3 + 6*4)/7, 2) = 6.86`. -/
theorem calculate_sgpa_spec_witness :
    let m1 : SubjectMarks := ⟨⟨3, 100, 40⟩, 40, 40, 80, "A+", 8, true⟩
    let m2 : SubjectMarks := ⟨⟨4, 100, 40⟩, 30, 30, 60, "B+", 6, true⟩
    let sr : SemesterResult := ⟨1, 0, 1, "2024-25", none, 0, 0, false, none, [m1, m2]⟩
    let sr0 : SemesterResult := ⟨2, 0, 1, "2024-25", none, 0, 0, false, none, []⟩
    ((calculate_sgpa sr).1 =
      round2 (sumWeightedGradePoints sr.subject_marks / (sumCredits sr.subject_marks : ℚ)) ∧
    (calculate_sgpa sr).2.total_credits = sumCredits sr.subject_marks ∧
    (calculate_sgpa sr).2.credits_earned =
      sumCredits (sr.subject_marks.filter (fun m => m.is_passed)) ∧
    (calculate_sgpa sr).2.sgpa = some ((calculate_sgpa sr).1) ∧
    calculate_sgpa sr0 = (0, sr0)) ∧
    (calculate_sgpa sr).1 = 686/100 := by
  refine ⟨calculate_sgpa_spec _ _ (by simp) (by norm_num [sumCredits]) (Or.inl rfl), ?_⟩
  rw [calculate_sgpa_eq _ (by simp) (by norm_num [sumCredits])]
  show round2 (sumWeightedGradePoints _ / (sumCredits _ : ℚ)) = 686/100
  have h1 : sumWeightedGradePoints
      [(⟨⟨3, 100, 40⟩, 40, 40, 80, "A+", 8, true⟩ : SubjectMarks),
       (⟨⟨4, 100, 40⟩, 30, 30, 60, "B+", 6, true⟩ : SubjectMarks)] = 48 := by
    norm_num [sumWeightedGradePoints]
  have h2 : sumCredits
      [(⟨⟨3, 100, 40⟩, 40, 40, 80, "A+", 8, true⟩ : SubjectMarks),
       (⟨⟨4, 100, 40⟩, 30, 30, 60, "B+", 6, true⟩ : SubjectMarks)] = 7 := by
    norm_num [sumCredits]
  rw [h1, h2]
  unfold round2
  rw [show ((48 : ℚ) / ((7 : ℤ) : ℚ)) * 100 = 4800/7 by norm_num]
  rw [roundHalfEven_eq_high (4800/7) 685 (by norm_num) (by norm_num)]
  norm_num

lemma calculate_cgpa_eq_specSide (l : List SemesterResult) :
    calculate_cgpa l = cgpaSpecSide l := by
  unfold calculate_cgpa cgpaSpecSide
  cases hp : l.filter (fun sr => sr.is_published) with
  | nil => simp [sumCredits]
  | cons a t =>
      by_cases hz : sumCredits ((a :: t).flatMap (fun sr => sr.subject_marks)) = 0 <;>
        simp [cgpaLoop_zero, hz]

/-- Claim C3: `calculate_cgpa` equals the spec-side formula — the rounded
credit-weighted average over the marks of exactly the published semester
results, `0.00` when they carry no credits — and (two-run form) any two
record sets agreeing on the published semester results give the same CGPA. -/
theorem calculate_cgpa_spec (l l₁ l₂ : List SemesterResult)
    (h : l₁.filter (fun sr => sr.is_published) = l₂.filter (fun sr => sr.is_published)) :
    calculate_cgpa l = cgpaSpecSide l ∧ calculate_cgpa l₁ = calculate_cgpa l₂ := by
  refine ⟨calculate_cgpa_eq_specSide l, ?_⟩
  unfold calculate_cgpa
  rw [h]

/-- Witness for `calculate_cgpa_spec`: a published and an unpublished result;
the two runs differ only in the unpublished result's marks. -/
theorem calculate_cgpa_spec_witness :
    let mP : SubjectMarks := ⟨⟨3, 100, 40⟩, 40, 40, 80, "A+", 9, true⟩
    let mU : SubjectMarks := ⟨⟨4, 100, 40⟩, 45, 45, 90, "O", 10, true⟩
    let srP : SemesterResult := ⟨1, 0, 1, "2023-24", some (9 : ℚ), 3, 3, true, some 5, [mP]⟩
    let srU : SemesterResult := ⟨1, 0, 2, "2024-25", none, 0, 0, false, none, [mU]⟩
    let srU' : SemesterResult := ⟨1, 0, 2, "2024-25", none, 0, 0, false, none, []⟩
    calculate_cgpa [srP, srU] = cgpaSpecSide [srP, srU] ∧
    calculate_cgpa [srP, srU] = calculate_cgpa [srP, srU'] :=
  calculate_cgpa_spec [_, _] [_, _] [_, _] rfl

/-- Subject A of the spec's end-to-end scenario: credits 4, max 100, passing 40. -/
def subjectA : Subject := ⟨4, 100, 40⟩

/-- Subject B of the spec's end-to-end scenario: credits 3, max 100, passing 40. -/
def subjectB : Subject := ⟨3, 100, 40⟩

/-- Saved marks for subject A: internal 30, external 45. -/
def marksA : SubjectMarks := SubjectMarks.save ⟨subjectA, 30, 45, 0, "", 0, false⟩

/-- Saved marks for subject B: internal 20, external 15. -/
def marksB : SubjectMarks := SubjectMarks.save ⟨subjectB, 20, 15, 0, "", 0, false⟩

/-- Semester 1 result of the scenario student, holding the two saved marks. -/
def scenarioResult : SemesterResult :=
  ⟨0, 0, 1, "2024-25", none, 0, 0, false, none, [marksA, marksB]⟩

lemma marksA_eq : marksA = ⟨subjectA, 30, 45, 75, "A", 8, true⟩ := by
  norm_num [marksA, SubjectMarks.save, SubjectMarks.calculate_grade, subjectA]

lemma marksB_eq : marksB = ⟨subjectB, 20, 15, 35, "F", 0, false⟩ := by
  norm_num [marksB, SubjectMarks.save, SubjectMarks.calculate_grade, subjectB]

/-- Counterexample to claim C4: in the spec's end-to-end scenario, subject A's
saved marks (total 75 out of 100) do NOT get grade `'A+'` with grade point 9.0,
and the SGPA is not 5.14: the 75% total falls in the `[70,80)` band. -/
theorem end_to_end_counterexample :
    ¬ (marksA.grade = "A+" ∧ marksA.grade_point = 9 ∧
       (calculate_sgpa scenarioResult).1 = 514/100) := by
  rintro ⟨h1, -, -⟩
  rw [marksA_eq] at h1
  exact absurd h1 (by decide)

/-- Claim C4 amended: in the end-to-end scenario, subject A has total 75,
grade `'A'`, grade point 8.0, passed; subject B has total 35, grade `'F'`,
grade point 0.0, failed; `calculate_sgpa` returns
`round((8.0*4 + 0.0*3)/7, 2) = 4.57` and persists `credits_earned = 4` and
`total_credits = 7`. -/
theorem end_to_end_amended :
    marksA.total_marks = 75 ∧ marksA.grade = "A" ∧ marksA.grade_point = 8 ∧
      marksA.is_passed = true ∧
    marksB.total_marks = 35 ∧ marksB.grade = "F" ∧ marksB.grade_point = 0 ∧
      marksB.is_passed = false ∧
    (calculate_sgpa scenarioResult).1 = round2 ((8 * 4 + 0 * 3 : ℚ) / 7) ∧
    (calculate_sgpa scenarioResult).1 = 457/100 ∧
    (calculate_sgpa scenarioResult).2.credits_earned = 4 ∧
    (calculate_sgpa scenarioResult).2.total_credits = 7 := by
  have hA := marksA_eq
  have hB := marksB_eq
  have hmarks : scenarioResult.subject_marks =
      [⟨subjectA, 30, 45, 75, "A", 8, true⟩, ⟨subjectB, 20, 15, 35, "F", 0, false⟩] := by
    rw [show scenarioResult.subject_marks = [marksA, marksB] from rfl, hA, hB]
  have hcred : sumCredits scenarioResult.subject_marks = 7 := by
    rw [hmarks]; norm_num [sumCredits, subjectA, subjectB]
  have hw : sumWeightedGradePoints scenarioResult.subject_marks = 32 := by
    rw [hmarks]; norm_num [sumWeightedGradePoints, subjectA, subjectB]
  have hne : scenarioResult.subject_marks ≠ [] := by rw [hmarks]; simp
  have hkey := calculate_sgpa_eq scenarioResult hne (by rw [hcred]; norm_num)
  have hround : round2 ((32 : ℚ) / 7) = 457/100 := by
    unfold round2
    rw [show ((32 : ℚ) / 7) * 100 = 3200/7 by norm_num]
    rw [roundHalfEven_eq_low (3200/7) 457 (by norm_num) (by norm_num)]
    norm_num
  refine ⟨by rw [hA], by rw [hA], by rw [hA], by rw [hA],
          by rw [hB], by rw [hB], by rw [hB], by rw [hB], ?_, ?_, ?_, ?_⟩
  · rw [hkey, hcred, hw]; norm_num
  · rw [hkey, hcred, hw]; push_cast; rw [hround]
  · rw [hkey]
    show sumCredits (scenarioResult.subject_marks.filter (fun m => m.is_passed)) = 4
    rw [hmarks]
    norm_num [sumCredits, subjectA]
  · rw [hkey]; exact hcred

/-- `results.models.ResultPublication`: one append-only audit row recording a
publish action. -/
structure ResultPublication where
  semester : ℤ
  academic_year : String
  program : Option ℕ
  published_by : ℕ
  published_date : ℕ
  total_students : ℕ
  remarks : String
deriving DecidableEq, Repr

/-- The persistent state the publication workflow reads and writes: the
`semester_results` table and the `result_publications` table. -/
structure ResultsDB where
  results : List SemesterResult
  publications : List ResultPublication
deriving DecidableEq, Repr

/-- The scope filter of `publish_results` (views.py lines 69-74):
`Q(semester=…, academic_year=…, is_published=False)`, plus
`student__program=program` when a program is chosen. -/
def publishMatches (semester : ℤ) (academic_year : String) (program : Option ℕ)
    (r : SemesterResult) : Bool :=
  decide (r.semester = semester) && decide (r.academic_year = academic_year) &&
    !r.is_published &&
    (match program with
     | none => true
     | some p => decide (r.program = p))

/-- The body of the publish loop (views.py lines 82-87): run `calculate_sgpa`
on the result (persisting its side effects), then set `is_published` and stamp
`published_date` before saving. -/
def publishOne (now : ℕ) (r : SemesterResult) : SemesterResult :=
  let r' := (calculate_sgpa r).2
  { r' with is_published := true, published_date := some now }

/-- Outcome reported by `publish_results`: either the
'No unpublished results found for the selected criteria.' warning message, or
the success message with the published count. -/
inductive PublishOutcome where
  | emptyWarning
  | success (count : ℕ)
deriving DecidableEq, Repr

/-- `publish_results` (views.py lines 59-116), POST path: select the
unpublished results in scope; warn and change nothing when the selection is
empty; otherwise publish each selected result and append one
`ResultPublication` audit row with the count of affected results. -/
def publish_results (semester : ℤ) (academic_year : String) (program : Option ℕ)
    (published_by : ℕ) (remarks : String) (now : ℕ) (db : ResultsDB) :
    PublishOutcome × ResultsDB :=
  let selected := db.results.filter (publishMatches semester academic_year program)
  if selected.isEmpty then (.emptyWarning, db)
  else
    let results' := db.results.map (fun r =>
      if publishMatches semester academic_year program r then publishOne now r else r)
    let pub : ResultPublication :=
      ⟨semester, academic_year, program, published_by, now, selected.length, remarks⟩
    (.success selected.length,
     { results := results', publications := db.publications ++ [pub] })

lemma calculate_sgpa_preserves_scope (r : SemesterResult) :
    (calculate_sgpa r).2.semester = r.semester ∧
    (calculate_sgpa r).2.academic_year = r.academic_year ∧
    (calculate_sgpa r).2.program = r.program ∧
    (calculate_sgpa r).2.is_published = r.is_published := by
  unfold calculate_sgpa
  split_ifs with h1
  · simp
  · simp only []
    split_ifs <;> simp

lemma publishMatches_publishOne (semester : ℤ) (academic_year : String)
    (program : Option ℕ) (now : ℕ) (r : SemesterResult) :
    publishMatches semester academic_year program (publishOne now r) = false := by
  simp [publishMatches, publishOne]

/-- After a publish, no result still matches the same scope's filter. -/
lemma filter_after_publish (semester : ℤ) (academic_year : String)
    (program : Option ℕ) (u : ℕ) (rem : String) (now : ℕ) (db : ResultsDB) :
    ((publish_results semester academic_year program u rem now db).2).results.filter
      (publishMatches semester academic_year program) = [] := by
  unfold publish_results
  by_cases hsel : (db.results.filter (publishMatches semester academic_year program)).isEmpty
  · rw [if_pos hsel]
    simpa [List.isEmpty_iff] using hsel
  · rw [if_neg hsel]
    simp only [List.filter_eq_nil_iff, List.mem_map]
    rintro r' ⟨r, _, rfl⟩
    by_cases hm : publishMatches semester academic_year program r = true
    · simp only [hm, if_true, publishMatches_publishOne]
      simp
    · simp only [hm, if_false]
      simp only [Bool.not_eq_true] at hm
      simp [hm]

/-- Claim C6: a publish request whose scope filter selects no unpublished
result reports the empty-selection warning, appends no audit row and leaves
the state unchanged; hence re-publishing a scope right after a successful
publish of that scope reports the warning and appends no second audit row. -/
theorem publish_empty_selection (semester : ℤ) (academic_year : String)
    (program : Option ℕ) (u u' : ℕ) (rem rem' : String) (now now' : ℕ)
    (dbE db0 : ResultsDB)
    (hE : dbE.results.filter (publishMatches semester academic_year program) = [])
    (h0 : db0.results.filter (publishMatches semester academic_year program) ≠ []) :
    publish_results semester academic_year program u rem now dbE = (.emptyWarning, dbE) ∧
    (publish_results semester academic_year program u rem now db0).1 ≠ .emptyWarning ∧
    publish_results semester academic_year program u' rem' now'
        ((publish_results semester academic_year program u rem now db0).2) =
      (.emptyWarning, (publish_results semester academic_year program u rem now db0).2) := by
  refine ⟨?_, ?_, ?_⟩
  · unfold publish_results
    rw [if_pos (by simp [hE])]
  · unfold publish_results
    rw [if_neg (by simpa [List.isEmpty_iff] using h0)]
    simp
  · have hafter := filter_after_publish semester academic_year program u rem now db0
    conv_lhs => rw [publish_results]
    rw [if_pos (by simp [hafter])]

/-- Witness for `publish_empty_selection`: an empty database on the warning
side, and a database with one matching unpublished result on the success
side. -/
theorem publish_empty_selection_witness :
    let dbE : ResultsDB := ⟨[], []⟩
    let r0 : SemesterResult := ⟨7, 2, 1, "2024-25", none, 0, 0, false, none, []⟩
    let db0 : ResultsDB := ⟨[r0], []⟩
    publish_results 1 "2024-25" none 3 "rem" 11 dbE = (.emptyWarning, dbE) ∧
    (publish_results 1 "2024-25" none 3 "rem" 11 db0).1 ≠ .emptyWarning ∧
    publish_results 1 "2024-25" none 4 "rem2" 12
        ((publish_results 1 "2024-25" none 3 "rem" 11 db0).2) =
      (.emptyWarning, (publish_results 1 "2024-25" none 3 "rem" 11 db0).2) :=
  publish_empty_selection 1 "2024-25" none 3 4 "rem" "rem2" 11 12 ⟨[], []⟩
    ⟨[⟨7, 2, 1, "2024-25", none, 0, 0, false, none, []⟩], []⟩
    rfl (by simp [publishMatches])

/-- The scope filter of `unpublish_results` (views.py lines 124-128):
`semester=…, academic_year=…, is_published=True` (no program scoping). -/
def unpublishMatches (semester : ℤ) (academic_year : String) (r : SemesterResult) : Bool :=
  decide (r.semester = semester) && decide (r.academic_year = academic_year) && r.is_published

/-- `unpublish_results` (views.py lines 119-133), POST path: one bulk
`update(is_published=False, published_date=None)` over the matching published
results, returning the updated-row count; the audit table is untouched. -/
def unpublish_results (semester : ℤ) (academic_year : String) (db : ResultsDB) :
    ℕ × ResultsDB :=
  let results' := db.results.map (fun r =>
    if unpublishMatches semester academic_year r then
      { r with is_published := false, published_date := none }
    else r)
  ((db.results.filter (unpublishMatches semester academic_year)).length,
   { results := results', publications := db.publications })

/-- Claim C7: unpublishing a scope flips every matching published result to
`is_published = false` with `published_date = null` and changes nothing else —
stored `sgpa`, `total_credits`, `credits_earned` and the marks stay as they
were (no SGPA recomputation), non-matching results are untouched, and no
`ResultPublication` audit row is deleted or modified. -/
theorem unpublish_frame (semester : ℤ) (academic_year : String) (db : ResultsDB) :
    (unpublish_results semester academic_year db).2.publications = db.publications ∧
    List.Forall₂ (fun r r' =>
      r'.sgpa = r.sgpa ∧ r'.total_credits = r.total_credits ∧
      r'.credits_earned = r.credits_earned ∧ r'.subject_marks = r.subject_marks ∧
      r'.student = r.student ∧ r'.semester = r.semester ∧
      r'.academic_year = r.academic_year ∧
      (unpublishMatches semester academic_year r = true →
        r'.is_published = false ∧ r'.published_date = none) ∧
      (unpublishMatches semester academic_year r = false → r' = r))
      db.results (unpublish_results semester academic_year db).2.results := by
  refine ⟨rfl, ?_⟩
  have h : (unpublish_results semester academic_year db).2.results = db.results.map
      (fun r => if unpublishMatches semester academic_year r then
        { r with is_published := false, published_date := none } else r) := rfl
  rw [h, List.forall₂_map_right_iff]
  rw [List.forall₂_same]
  intro r _
  by_cases hm : unpublishMatches semester academic_year r = true
  · simp [hm]
  · simp only [Bool.not_eq_true] at hm
    simp [hm]

/-- One student's slice of a bulk marks POST: the raw `internal_<id>`,
`external_<id>` (absent key ↦ `none`) and `remarks_<id>` values. -/
structure MarksRow where
  student : ℕ
  internal : Option String
  external : Option String
  remarks : String
deriving DecidableEq, Repr

/-- Decimal digit value of a character, `none` for a non-digit. -/
def charDigit (c : Char) : Option ℕ :=
  if 48 ≤ c.toNat ∧ c.toNat ≤ 57 then some (c.toNat - 48) else none

/-- Accumulate decimal digits; `none` accumulator means no digit seen yet, so
an empty digit string parses to `none`. -/
def digitsToNat : List Char → Option ℕ → Option ℕ
  | [], acc => acc
  | c :: cs, acc =>
    match charDigit c, acc with
    | some d, some n => digitsToNat cs (some (n * 10 + d))
    | some d, none => digitsToNat cs (some d)
    | none, _ => none

/-- Model of Python `int(...)` on a raw POST value: an optional leading minus
sign followed by one or more decimal digits parses to an integer, anything
else raises `ValueError` (`none`). -/
def parseInt (s : String) : Option ℤ :=
  match s.data with
  | '-' :: rest => (digitsToNat rest none).map (fun n => -(n : ℤ))
  | l => (digitsToNat l none).map (fun n => (n : ℤ))

/-- `update_or_create` keyed by student id: replace the student's existing row
or append a new one. -/
def upsertByStudent {α : Type} (student : ℕ) (v : α) :
    List (ℕ × α) → List (ℕ × α)
  | [] => [(student, v)]
  | (s, old) :: rest =>
      if s = student then (s, v) :: rest
      else (s, old) :: upsertByStudent student v rest

/-- The per-student body of the `teacher_marks_entry` POST loop
(views.py lines 250-287): skip students with a missing key, count a parse
failure or negative marks as one error and continue, otherwise persist the
saved `SubjectMarks` row and count one success. Python's `int(...)` is
modelled by `parseInt`. -/
def processMarksRow (subject : Subject) (row : MarksRow)
    (db : List (ℕ × SubjectMarks)) (succ err : ℕ) :
    List (ℕ × SubjectMarks) × ℕ × ℕ :=
  match row.internal, row.external with
  | some istr, some estr =>
    match parseInt istr, parseInt estr with
    | some i, some e =>
      if i < 0 ∨ e < 0 then (db, succ, err + 1)
      else
        (upsertByStudent row.student
          (SubjectMarks.save ⟨subject, i, e, 0, "", 0, false⟩) db,
         succ + 1, err)
    | _, _ => (db, succ, err + 1)
  | _, _ => (db, succ, err)

/-- The `teacher_marks_entry` POST loop over the roster, threading the
persisted rows and the success / error tallies. -/
def teacher_marks_entry (subject : Subject) (rows : List MarksRow)
    (db : List (ℕ × SubjectMarks)) (succ err : ℕ) :
    List (ℕ × SubjectMarks) × ℕ × ℕ :=
  match rows with
  | [] => (db, succ, err)
  | row :: rest =>
      let out := processMarksRow subject row db succ err
      teacher_marks_entry subject rest out.1 out.2.1 out.2.2

/-- A row that the loop counts as failed: both keys present but a value is
non-numeric or a parsed mark is negative. -/
def marksRowFails (row : MarksRow) : Bool :=
  match row.internal, row.external with
  | some istr, some estr =>
    match parseInt istr, parseInt estr with
    | some i, some e => decide (i < 0) || decide (e < 0)
    | _, _ => true
  | _, _ => false

lemma teacher_marks_entry_err_shift (subject : Subject) (rows : List MarksRow)
    (db : List (ℕ × SubjectMarks)) (succ err : ℕ) :
    teacher_marks_entry subject rows db succ (err + 1) =
      ((teacher_marks_entry subject rows db succ err).1,
       (teacher_marks_entry subject rows db succ err).2.1,
       (teacher_marks_entry subject rows db succ err).2.2 + 1) := by
  induction rows generalizing db succ err with
  | nil => rfl
  | cons row rest ih =>
      simp only [teacher_marks_entry]
      rcases row with ⟨s, i, e, rem⟩
      rcases i with _ | istr <;> rcases e with _ | estr <;>
        simp only [processMarksRow] <;>
        try exact ih _ _ _
      rcases hi : parseInt istr with _ | iv <;> rcases he : parseInt estr with _ | ev <;>
        simp only [hi, he] <;> try exact ih _ _ _
      by_cases hneg : iv < 0 ∨ ev < 0
      · rw [if_pos hneg, if_pos hneg]
        exact ih _ _ _
      · rw [if_neg hneg, if_neg hneg]
        exact ih _ _ _

lemma processMarksRow_fails (subject : Subject) (row : MarksRow)
    (db : List (ℕ × SubjectMarks)) (succ err : ℕ)
    (h : marksRowFails row = true) :
    processMarksRow subject row db succ err = (db, succ, err + 1) := by
  rcases row with ⟨s, i, e, rem⟩
  rcases i with _ | istr <;> rcases e with _ | estr <;>
    simp only [marksRowFails] at h <;> try cases h
  simp only [processMarksRow]
  rcases hi : parseInt istr with _ | iv <;> rcases he : parseInt estr with _ | ev <;>
    simp only [hi, he] at h ⊢ <;> try rfl
  rw [if_pos (by simpa using h)]

/-- Claim C9: in the bulk marks-entry loop, a failing row (non-numeric or
negative marks) contributes exactly one error and nothing else: the batch with
the failing row produces the same persisted rows and success count as the
batch without it, with the error count one higher — so a failure on one
student never prevents processing of the others, both tallies are reported,
successes around the failure persist, and the failed row is never retried. -/
theorem bulk_marks_skips_failing_row (subject : Subject)
    (pre post : List MarksRow) (bad : MarksRow)
    (db : List (ℕ × SubjectMarks)) (succ err : ℕ)
    (h : marksRowFails bad = true) :
    teacher_marks_entry subject (pre ++ bad :: post) db succ err =
      ((teacher_marks_entry subject (pre ++ post) db succ err).1,
       (teacher_marks_entry subject (pre ++ post) db succ err).2.1,
       (teacher_marks_entry subject (pre ++ post) db succ err).2.2 + 1) := by
  induction pre generalizing db succ err with
  | nil =>
      simp only [List.nil_append, teacher_marks_entry, processMarksRow_fails subject bad db succ err h]
      exact teacher_marks_entry_err_shift subject post db succ err
  | cons row rest ih =>
      simp only [List.cons_append, teacher_marks_entry]
      exact ih _ _ _

/-- Witness for `bulk_marks_skips_failing_row`: students 1 and 3 parse and
persist, student 2's non-numeric internal mark counts one error. -/
theorem bulk_marks_skips_failing_row_witness :
    let subject : Subject := ⟨4, 100, 40⟩
    let r1 : MarksRow := ⟨1, some "30", some "45", ""⟩
    let bad : MarksRow := ⟨2, some "abc", some "10", ""⟩
    let r3 : MarksRow := ⟨3, some "20", some "15", ""⟩
    teacher_marks_entry subject [r1, bad, r3] [] 0 0 =
      ((teacher_marks_entry subject [r1, r3] [] 0 0).1,
       (teacher_marks_entry subject [r1, r3] [] 0 0).2.1,
       (teacher_marks_entry subject [r1, r3] [] 0 0).2.2 + 1) :=
  bulk_marks_skips_failing_row ⟨4, 100, 40⟩ [⟨1, some "30", some "45", ""⟩]
    [⟨3, some "20", some "15", ""⟩] ⟨2, some "abc", some "10", ""⟩ [] 0 0 (by decide)

/-- `AttendanceForm.clean` (forms.py lines 48-56): returns `true` when the
form raises `ValidationError` ('Attended classes cannot exceed total
classes.'). The Python guard is `if total and attended and attended > total`,
so by falsiness the check is skipped when either cleaned value is missing
(`none`) or zero. -/
def attendanceFormRejects (total attended : Option ℤ) : Bool :=
  match total, attended with
  | some t, some a => !decide (t = 0) && !decide (a = 0) && decide (a > t)
  | _, _ => false

/-- One student's slice of a bulk attendance POST: the raw `total_<id>` and
`attended_<id>` values (absent key ↦ `none`). -/
structure AttendanceRow where
  student : ℕ
  total : Option String
  attended : Option String
deriving DecidableEq, Repr

/-- The per-student body of the `teacher_attendance_entry` POST loop
(views.py lines 350-368): skip students with a missing or empty value
(string falsiness) or a non-numeric one (caught exception, no tally), else
persist the saved `Attendance` row and count one success. No
attended-versus-total comparison is made. -/
def processAttendanceRow (row : AttendanceRow)
    (db : List (ℕ × Attendance)) (succ : ℕ) : List (ℕ × Attendance) × ℕ :=
  match row.total, row.attended with
  | some tstr, some astr =>
    if tstr = "" ∨ astr = "" then (db, succ)
    else
      match parseInt tstr, parseInt astr with
      | some t, some a =>
          (upsertByStudent row.student (Attendance.save ⟨t, a, 0⟩) db, succ + 1)
      | _, _ => (db, succ)
  | _, _ => (db, succ)

/-- The `teacher_attendance_entry` POST loop over the roster. -/
def teacher_attendance_entry (rows : List AttendanceRow)
    (db : List (ℕ × Attendance)) (succ : ℕ) : List (ℕ × Attendance) × ℕ :=
  match rows with
  | [] => (db, succ)
  | row :: rest =>
      let out := processAttendanceRow row db succ
      teacher_attendance_entry rest out.1 out.2

/-- Counterexample to claim C10: the bulk attendance submission interface
(`teacher_attendance_entry`) applies no attended-versus-total validation, so a
submission of `total = "10"`, `attended = "15"` persists an `Attendance` row
with `attended_classes > total_classes` (and percentage 150). -/
theorem attendance_overflow_persisted :
    (teacher_attendance_entry [⟨5, some "10", some "15"⟩] [] 0).2 = 1 ∧
    ∃ rec : Attendance,
      (5, rec) ∈ (teacher_attendance_entry [⟨5, some "10", some "15"⟩] [] 0).1 ∧
      rec.attended_classes > rec.total_classes := by
  have hparse10 : parseInt "10" = some 10 := by decide
  have hparse15 : parseInt "15" = some 15 := by decide
  have hsave : Attendance.save ⟨10, 15, 0⟩ = ⟨10, 15, 150⟩ := by
    unfold Attendance.save
    rw [if_pos (by norm_num)]
    have : round2 (((15 : ℤ) : ℚ) / ((10 : ℤ) : ℚ) * 100) = 150 := by
      unfold round2
      rw [show (((15 : ℤ) : ℚ) / ((10 : ℤ) : ℚ) * 100) * 100 = 15000 by norm_num]
      rw [roundHalfEven_eq_low 15000 15000 (by norm_num) (by norm_num)]
      norm_num
    rw [this]
  have hrun : teacher_attendance_entry [⟨5, some "10", some "15"⟩] [] 0 =
      ([(5, (⟨10, 15, 150⟩ : Attendance))], 1) := by
    simp [teacher_attendance_entry, processAttendanceRow, hparse10, hparse15, hsave,
      upsertByStudent, show ¬("10" : String) = "" from by decide,
      show ¬("15" : String) = "" from by decide]
  rw [hrun]
  exact ⟨rfl, ⟨10, 15, 150⟩, by simp, by norm_num⟩

/-- Claim C10 amended: `AttendanceForm.clean` rejects `attended > total`
before persistence whenever both values are present and nonzero (in
particular whenever `total > 0` and `attended > total`); but the bulk
`teacher_attendance_entry` interface applies no such validation, so an
`Attendance` row with `attended_classes > total_classes` can be persisted
through it. -/
theorem attendance_validation_amended (t a : ℤ) (ht : 0 < t) (hat : t < a) :
    attendanceFormRejects (some t) (some a) = true ∧
    ∃ rows : List AttendanceRow, ∃ s : ℕ, ∃ rec : Attendance,
      (s, rec) ∈ (teacher_attendance_entry rows [] 0).1 ∧
      rec.attended_classes > rec.total_classes := by
  refine ⟨?_, [⟨5, some "10", some "15"⟩], 5, ?_⟩
  · have h1 : ¬ t = 0 := by omega
    have h2 : ¬ a = 0 := by omega
    simp [attendanceFormRejects, h1, h2, hat]
  · exact attendance_overflow_persisted.2

/-- Witness for `attendance_validation_amended` at `total = 10`,
`attended = 15`. -/
theorem attendance_validation_amended_witness :
    attendanceFormRejects (some 10) (some 15) = true ∧
    ∃ rows : List AttendanceRow, ∃ s : ℕ, ∃ rec : Attendance,
      (s, rec) ∈ (teacher_attendance_entry rows [] 0).1 ∧
      rec.attended_classes > rec.total_classes :=
  attendance_validation_amended 10 15 (by norm_num) (by norm_num)

end SRM
